import Mathlib

/-!
Shallow embedding of the word-of-the-day resolution pipeline of the
learn-daily-word repository.

The embedded code:
  * `src/lib/supabase.ts` — `WordData`, `FallbackWordsSystem` (fixed catalog,
    deterministic date selector, search, recent words) and the external calls
    of `WordsDatabase` (modelled through an environment of call outcomes);
  * the huggingface module (concatenated into `src/lib/supabase.ts`) —
    `GeneratedWord`, `SmartWordBank`, `HuggingFaceWordGenerator`
    (`getRandomWord`, `generateWord`, `parseJSONResponse`);
  * `src/unnamed/part_000` (second, current route version) — the GET handler
    for a date: `generateWordWithSmartBank` and the cascading fallback chain;
  * `src/app/api/words/history/route.ts` and
    `src/app/api/words/search/route.ts` — the auxiliary GET handlers.

JavaScript exceptions are modelled with `Except Unit`: every external call in
an environment record either returns a value (`Except.ok`) or throws
(`Except.error ()`), and the source's `try`/`catch` blocks become matches on
those outcomes.  Pure source functions are translated as total Lean
functions.  Persistence metadata (`id`, `created_at`, `updated_at`) is
assigned only by the external store and never inspected by the embedded code,
so it is omitted from the record type.
-/

/-- JavaScript whitespace test for the characters relevant here (space, tab,
newline, carriage return). -/
def isWsChar (c : Char) : Bool := c = ' ' ∨ c = '\t' ∨ c = '\n' ∨ c = '\r'

/-- Drop leading whitespace of a character list. -/
def skipWs : List Char → List Char
  | [] => []
  | c :: rest => if isWsChar c then skipWs rest else c :: rest

/-- Model of `String.prototype.trim` on the character list of a string. -/
def jsTrim (cs : List Char) : List Char :=
  ((skipWs cs).reverse |> skipWs).reverse

/-- ASCII lower-casing of one character, modelling what
`String.prototype.toLowerCase` does on the ASCII letters appearing in the
embedded catalogs and queries. -/
def charLowerAscii (c : Char) : Char :=
  if 'A' ≤ c ∧ c ≤ 'Z' then Char.ofNat (c.toNat + 32) else c

/-- Model of `String.prototype.toLowerCase` (ASCII letters). -/
def strLower (s : String) : String := String.mk (s.data.map charLowerAscii)

/-- `containsSub needle hay`: the needle occurs as a contiguous run inside
the haystack (helper for `String.prototype.includes`). -/
def containsSub (needle : List Char) : List Char → Bool
  | [] => needle.isEmpty
  | c :: rest => needle.isPrefixOf (c :: rest) || containsSub needle rest

/-- Model of `String.prototype.includes`: the needle occurs as a contiguous
substring of the haystack. -/
def strIncludes (hay needle : String) : Bool := containsSub needle.data hay.data

/-- Model of `String.prototype.trim` at the `String` level. -/
def strTrim (s : String) : String := String.mk (jsTrim s.data)

/-- Numeric value of a list of decimal digit characters; this is what
JavaScript's `parseInt` returns on the all-digit components produced by
splitting a `YYYY-MM-DD` date at `"-"`. -/
def jsParseIntDigits (cs : List Char) : Nat :=
  cs.foldl (fun a c => a * 10 + (c.toNat - 48)) 0

/-- `String.prototype.split` with a one-character separator, on character
lists: `splitSepAux sep cs acc` accumulates the current (reversed) piece. -/
def splitSepAux (sep : Char) : List Char → List Char → List (List Char)
  | [], acc => [acc.reverse]
  | c :: rest, acc =>
    if c = sep then acc.reverse :: splitSepAux sep rest []
    else splitSepAux sep rest (c :: acc)

/-- `date.split(sep)` as a list of character lists. -/
def splitSep (sep : Char) (cs : List Char) : List (List Char) :=
  splitSepAux sep cs []

/-- The date hash of both deterministic selectors:
`date.split("-").reduce((acc, part) => acc + parseInt(part), 0)`. -/
def dateHashOf (date : String) : Nat :=
  ((splitSep '-' date.data).map jsParseIntDigits).sum

/-- The route's date validation `/^\d{4}-\d{2}-\d{2}$/.test(date)`. -/
def matchesDateRe (s : String) : Bool :=
  match s.data with
  | [a, b, c, d, h1, e, f, h2, g, i] =>
    a.isDigit && b.isDigit && c.isDigit && d.isDigit && h1 = '-' &&
    e.isDigit && f.isDigit && h2 = '-' && g.isDigit && i.isDigit
  | _ => false

/-- The `WordData` record of `src/lib/supabase.ts` (persistence metadata
omitted, see the module comment; the optional `source` is modelled as a
plain string since every record built by the embedded code assigns it). -/
structure WordData where
  date : String
  word : String
  phonetic : String
  definition : String
  translation : String
  examples : List String
  level : String
  source : String
deriving DecidableEq, Repr, Inhabited

/-- The `GeneratedWord` record of the huggingface module (no `date`, no
`source`). -/
structure GeneratedWord where
  word : String
  phonetic : String
  definition : String
  translation : String
  examples : List String
  level : String
deriving DecidableEq, Repr, Inhabited
/-- The fixed curated catalog `FallbackWordsSystem.fallbackWords` of src/lib/supabase.ts (12 entries). -/
def FallbackWordsSystem.fallbackWords : List WordData := [
  { date := "2024-01-01", word := "serendipity", phonetic := "/ˌserənˈdɪpɪti/",
    definition := "The occurrence of events by chance in a happy or beneficial way",
    translation := "casualidad afortunada, chiripa",
    examples := ["Meeting you here was pure serendipity!",
      "It was serendipity that led me to find this amazing café.",
      "Sometimes the best discoveries happen through serendipity."],
    level := "C1", source := "manual" },
  { date := "2024-01-02", word := "procrastinate", phonetic := "/prəˈkræstɪneɪt/",
    definition := "To delay or postpone action; to put off doing something",
    translation := "procrastinar, postergar",
    examples := ["I tend to procrastinate when I have difficult tasks.",
      "Don\x27t procrastinate on your homework anymore!",
      "She always procrastinates until the last minute."],
    level := "B2", source := "manual" },
  { date := "2024-01-03", word := "eloquent", phonetic := "/ˈeləkwənt/",
    definition := "Fluent and persuasive in speaking or writing",
    translation := "elocuente, persuasivo",
    examples := ["Her eloquent speech moved the entire audience.",
      "He\x27s quite eloquent when discussing his passions.",
      "The lawyer made an eloquent argument in court."],
    level := "C1", source := "manual" },
  { date := "2024-01-04", word := "resilient", phonetic := "/rɪˈzɪliənt/",
    definition := "Able to recover quickly from difficult conditions",
    translation := "resistente, resiliente",
    examples := ["Children are remarkably resilient creatures.",
      "The city proved resilient after the natural disaster.",
      "You need to be resilient to succeed in business."],
    level := "B2", source := "manual" },
  { date := "2024-01-05", word := "ubiquitous", phonetic := "/juːˈbɪkwɪtəs/",
    definition := "Present, appearing, or found everywhere",
    translation := "omnipresente, ubicuo",
    examples := ["Smartphones have become ubiquitous in modern society.",
      "Coffee shops are ubiquitous in this neighborhood.",
      "Social media is ubiquitous among young people."],
    level := "C1", source := "manual" },
  { date := "2024-01-06", word := "ambiguous", phonetic := "/æmˈbɪɡjuəs/",
    definition := "Open to more than one interpretation; not having one obvious meaning",
    translation := "ambiguo, poco claro",
    examples := ["His response was deliberately ambiguous.",
      "The contract terms are too ambiguous.",
      "She gave an ambiguous answer to avoid conflict."],
    level := "B2", source := "manual" },
  { date := "2024-01-07", word := "ephemeral", phonetic := "/ɪˈfemərəl/",
    definition := "Lasting for a very short time",
    translation := "efímero, pasajero",
    examples := ["The beauty of cherry blossoms is ephemeral.",
      "Fame can be quite ephemeral in today\x27s world.",
      "Their happiness felt ephemeral but intense."],
    level := "C1", source := "manual" },
  { date := "2024-01-08", word := "meticulous", phonetic := "/mɪˈtɪkjələs/",
    definition := "Showing great attention to detail; very careful and precise",
    translation := "meticuloso, minucioso",
    examples := ["She\x27s meticulous about keeping her workspace organized.",
      "The detective conducted a meticulous investigation.",
      "His meticulous planning ensured the project\x27s success."],
    level := "B2", source := "manual" },
  { date := "2024-01-09", word := "pragmatic", phonetic := "/præɡˈmætɪk/",
    definition := "Dealing with things sensibly and realistically",
    translation := "pragmático, práctico",
    examples := ["We need a pragmatic approach to solve this problem.",
      "She\x27s very pragmatic when making business decisions.",
      "His pragmatic advice helped us avoid costly mistakes."],
    level := "C1", source := "manual" },
  { date := "2024-01-10", word := "versatile", phonetic := "/ˈvɜːrsətaɪl/",
    definition := "Able to adapt or be adapted to many different functions or activities",
    translation := "versátil, polivalente",
    examples := ["This versatile tool can be used for many tasks.",
      "She\x27s a versatile actress who can play any role.",
      "The versatile ingredient works in both sweet and savory dishes."],
    level := "B2", source := "manual" },
  { date := "2024-01-11", word := "innovative", phonetic := "/ˈɪnəveɪtɪv/",
    definition := "Featuring new methods; advanced and original",
    translation := "innovador, novedoso",
    examples := ["The company is known for its innovative approach to technology.",
      "She came up with an innovative solution to the problem.",
      "This innovative design has revolutionized the industry."],
    level := "B2", source := "manual" },
  { date := "2024-01-12", word := "sophisticated", phonetic := "/səˈfɪstɪkeɪtɪd/",
    definition := "Having great knowledge or experience; complex and refined",
    translation := "sofisticado, refinado",
    examples := ["The restaurant offers sophisticated cuisine from around the world.",
      "She has a sophisticated understanding of international politics.",
      "The software uses sophisticated algorithms to analyze data."],
    level := "C1", source := "manual" }]

/-- The fixed catalog `SmartWordBank.words` of the huggingface module (28 entries). -/
def SmartWordBank.words : List GeneratedWord := [
  { word := "articulate", phonetic := "/톔틣r틛t톩kj톛l톛t/",
    definition := "Having or showing the ability to speak fluently and coherently",
    translation := "articulado, elocuente",
    examples := ["She\x27s very articulate when explaining complex topics.",
      "The speaker gave an articulate presentation on climate change.",
      "He struggled to articulate his feelings about the situation."],
    level := "C1" },
  { word := "comprehensive", phonetic := "/틟k톔틣mpr톩틛hens톩v/",
    definition := "Complete and including everything that is necessary",
    translation := "completo, exhaustivo",
    examples := ["The report provides a comprehensive analysis of the market.",
      "She has comprehensive knowledge of European history.",
      "The insurance policy offers comprehensive coverage."],
    level := "B2" },
  { word := "substantial", phonetic := "/s톛b틛st칝n툮톛l/",
    definition := "Of considerable importance, size, or worth",
    translation := "sustancial, considerable",
    examples := ["There has been substantial progress in medical research.",
      "The company made substantial investments in new technology.",
      "She received a substantial salary increase this year."],
    level := "B2" },
  { word := "inevitable", phonetic := "/톩n틛ev톩t톛b톛l/",
    definition := "Certain to happen; unavoidable",
    translation := "inevitable, ineludible",
    examples := ["Change is inevitable in any growing organization.",
      "It was inevitable that they would eventually meet.",
      "The economic downturn seemed inevitable after the crisis."],
    level := "C1" },
  { word := "contemporary", phonetic := "/k톛n틛temp톛reri/",
    definition := "Belonging to or occurring in the present time",
    translation := "contempor치neo, actual",
    examples := ["Contemporary art often challenges traditional concepts.",
      "She studies contemporary literature at university.",
      "The building combines classical and contemporary styles."],
    level := "C1" },
  { word := "fundamental", phonetic := "/틟f툷nd톛틛ment톛l/",
    definition := "Forming a necessary base or core; of central importance",
    translation := "fundamental, b치sico",
    examples := ["Reading is fundamental to academic success.",
      "There are fundamental differences between the approaches.",
      "Understanding grammar is fundamental to learning languages."],
    level := "B2" },
  { word := "significant", phonetic := "/s톩토틛n톩f톩k톛nt/",
    definition := "Sufficiently great or important to be worthy of attention",
    translation := "significativo, importante",
    examples := ["There was a significant improvement in her performance.",
      "The discovery has significant implications for medicine.",
      "He made significant contributions to physics."],
    level := "B2" },
  { word := "elaborate", phonetic := "/톩틛l칝b톛r톛t/",
    definition := "Involving many carefully arranged parts or details",
    translation := "elaborado, detallado",
    examples := ["She prepared an elaborate dinner for the guests.",
      "The plan was too elaborate to implement easily.",
      "Could you elaborate on your previous statement?"],
    level := "C1" },
  { word := "authentic", phonetic := "/톖틣틛풪ent톩k/",
    definition := "Of undisputed origin; genuine",
    translation := "aut칠ntico, genuino",
    examples := ["The restaurant serves authentic Italian cuisine.",
      "She has an authentic passion for helping others.",
      "The painting was confirmed to be authentic."],
    level := "B2" },
  { word := "prominent", phonetic := "/틛pr톔틣m톩n톛nt/",
    definition := "Important; famous; standing out so as to be seen easily",
    translation := "prominente, destacado",
    examples := ["She\x27s a prominent figure in the tech industry.",
      "The building has a prominent position downtown.",
      "Environmental issues played a prominent role."],
    level := "C1" },
  { word := "coherent", phonetic := "/ko툵틛h톩r톛nt/",
    definition := "Logical and consistent; easy to understand",
    translation := "coherente, l칩gico",
    examples := ["She presented a coherent argument for the proposal.",
      "The book lacks a coherent structure.",
      "His explanation was clear and coherent."],
    level := "C1" },
  { word := "persistent", phonetic := "/p톛r틛s톩st톛nt/",
    definition := "Continuing firmly despite difficulty or opposition",
    translation := "persistente, constante",
    examples := ["She was persistent in her efforts to learn.",
      "The persistent rain caused flooding.",
      "His persistent questions got him answers."],
    level := "B2" },
  { word := "versatile", phonetic := "/틛v톞틣rs톛ta톩l/",
    definition := "Able to adapt to many different functions or activities",
    translation := "vers치til, polivalente",
    examples := ["This versatile tool can be used for many tasks.",
      "She\x27s a versatile actress who can play any role.",
      "The ingredient works in sweet and savory dishes."],
    level := "B2" },
  { word := "innovative", phonetic := "/틛톩n톛ve톩t톩v/",
    definition := "Featuring new methods; advanced and original",
    translation := "innovador, novedoso",
    examples := ["The company has an innovative approach to technology.",
      "She came up with an innovative solution.",
      "This innovative design revolutionized the industry."],
    level := "B2" },
  { word := "sophisticated", phonetic := "/s톛틛f톩st톩ke톩t톩d/",
    definition := "Having great knowledge or experience; complex and refined",
    translation := "sofisticado, refinado",
    examples := ["The restaurant offers sophisticated cuisine.",
      "She has sophisticated understanding of politics.",
      "The software uses sophisticated algorithms."],
    level := "C1" },
  { word := "compelling", phonetic := "/k톛m틛pel톩콂/",
    definition := "Evoking interest, attention, or admiration powerfully",
    translation := "convincente, atractivo",
    examples := ["She made a compelling argument for change.",
      "The documentary presents compelling evidence.",
      "His story was compelling and moving."],
    level := "C1" },
  { word := "distinctive", phonetic := "/d톩틛st톩콂kt톩v/",
    definition := "Characteristic of one person or thing; distinguishing",
    translation := "distintivo, caracter칤stico",
    examples := ["The building has a distinctive architectural style.",
      "She has a distinctive way of speaking.",
      "The wine has a distinctive flavor."],
    level := "B2" },
  { word := "exceptional", phonetic := "/톩k틛sep툮톛n톛l/",
    definition := "Unusually good; outstanding",
    translation := "excepcional, extraordinario",
    examples := ["She showed exceptional talent in mathematics.",
      "The service at the restaurant was exceptional.",
      "These are exceptional circumstances."],
    level := "B2" },
  { word := "magnificent", phonetic := "/m칝토틛n톩f톩s톛nt/",
    definition := "Extremely beautiful, elaborate, or impressive",
    translation := "magn칤fico, espl칠ndido",
    examples := ["The cathedral has a magnificent interior.",
      "She gave a magnificent performance.",
      "The view from the mountain was magnificent."],
    level := "B2" },
  { word := "tremendous", phonetic := "/tr톩틛mend톛s/",
    definition := "Very great in amount, scale, or intensity",
    translation := "tremendo, enorme",
    examples := ["The project required tremendous effort.",
      "She has tremendous respect for her mentor.",
      "There was tremendous excitement in the crowd."],
    level := "B2" },
  { word := "extraordinary", phonetic := "/톩k틛str톖틣rd톛neri/",
    definition := "Very unusual or remarkable",
    translation := "extraordinario, excepcional",
    examples := ["She has extraordinary musical talent.",
      "The rescue was an extraordinary feat.",
      "These are extraordinary times."],
    level := "C1" },
  { word := "remarkable", phonetic := "/r톩틛m톔틣rk톛b톛l/",
    definition := "Worthy of attention; striking",
    translation := "notable, extraordinario",
    examples := ["She made remarkable progress in just one year.",
      "The recovery was remarkable.",
      "He has a remarkable memory for details."],
    level := "B2" },
  { word := "outstanding", phonetic := "/a툵t틛st칝nd톩콂/",
    definition := "Exceptionally good; clearly noticeable",
    translation := "destacado, sobresaliente",
    examples := ["She received an award for outstanding service.",
      "The team\x27s performance was outstanding.",
      "There are still outstanding issues to resolve."],
    level := "B2" },
  { word := "phenomenal", phonetic := "/f톛틛n톔틣m톛n톛l/",
    definition := "Very remarkable; extraordinary",
    translation := "fenomenal, extraordinario",
    examples := ["The athlete\x27s speed is phenomenal.",
      "The company achieved phenomenal growth.",
      "She has a phenomenal ability to learn languages."],
    level := "C1" },
  { word := "spectacular", phonetic := "/spek틛t칝kj톛l톛r/",
    definition := "Beautiful in a dramatic and eye-catching way",
    translation := "espectacular, impresionante",
    examples := ["The sunset was absolutely spectacular.",
      "The fireworks display was spectacular.",
      "She made a spectacular comeback."],
    level := "B2" },
  { word := "incredible", phonetic := "/톩n틛kred톛b톛l/",
    definition := "Impossible to believe; extraordinary",
    translation := "incre칤ble, extraordinario",
    examples := ["The view from the top was incredible.",
      "She has incredible patience with children.",
      "The team\x27s comeback was incredible."],
    level := "B2" },
  { word := "astonishing", phonetic := "/톛틛st톔틣n톩툮톩콂/",
    definition := "Extremely surprising or impressive",
    translation := "asombroso, sorprendente",
    examples := ["The magician\x27s tricks were astonishing.",
      "She made astonishing progress in her recovery.",
      "The results were absolutely astonishing."],
    level := "C1" },
  { word := "breathtaking", phonetic := "/틛bre풪te톩k톩콂/",
    definition := "Astonishing or awe-inspiring in quality",
    translation := "impresionante, que quita el aliento",
    examples := ["The mountain scenery was breathtaking.",
      "She gave a breathtaking performance.",
      "The architecture is absolutely breathtaking."],
    level := "C1" }]

/-- `FallbackWordsSystem.getWordByDate` of `src/lib/supabase.ts`: hash the
date, index the fixed catalog, and return a copy of the entry with `date`
overwritten to the input date. -/
def FallbackWordsSystem.getWordByDate (date : String) : WordData :=
  let dateHash := dateHashOf date
  let selectedWord :=
    FallbackWordsSystem.fallbackWords.getD
      (dateHash % FallbackWordsSystem.fallbackWords.length) default
  { selectedWord with date := date }

/-- The same selection algorithm over an arbitrary catalog (the class field
`fallbackWords` made a parameter), used to state the claim quantified over
every non-empty catalog. -/
def selectWordForDate (catalog : List WordData) (date : String) : WordData :=
  let dateHash := dateHashOf date
  let selectedWord := catalog.getD (dateHash % catalog.length) default
  { selectedWord with date := date }

/-- `SmartWordBank.getWordForDate` of the huggingface module: hash the date
and index the fixed word bank (the entry is returned as is; `GeneratedWord`
carries no date field). -/
def SmartWordBank.getWordForDate (date : String) : GeneratedWord :=
  let dateHash := dateHashOf date
  SmartWordBank.words.getD (dateHash % SmartWordBank.words.length) default

/-- JavaScript `Array.prototype.slice(0, e)` (the negative end counts from
the end of the array). -/
def jsSliceTo {α : Type} (l : List α) (e : Int) : List α :=
  if e < 0 then l.take (((l.length : Int) + e).toNat) else l.take e.toNat

/-- `FallbackWordsSystem.getRecentWords` of `src/lib/supabase.ts`:
`fallbackWords.slice(0, Math.min(days, fallbackWords.length))`.  The `days`
argument is `Option Int` with `none` standing for JavaScript `NaN`
(`Math.min(NaN, len)` is `NaN` and `slice(0, NaN)` is empty). -/
def FallbackWordsSystem.getRecentWords (days : Option Int) : List WordData :=
  match days with
  | none => []
  | some n =>
    jsSliceTo FallbackWordsSystem.fallbackWords
      (min n (FallbackWordsSystem.fallbackWords.length : Int))

/-- `FallbackWordsSystem.searchWords` of `src/lib/supabase.ts`:
case-insensitive substring filter over `word`, `definition` and
`translation`. -/
def FallbackWordsSystem.searchWords (query : String) : List WordData :=
  let lowerQuery := strLower query
  FallbackWordsSystem.fallbackWords.filter fun w =>
    strIncludes (strLower w.word) lowerQuery ||
    strIncludes (strLower w.definition) lowerQuery ||
    strIncludes (strLower w.translation) lowerQuery

/-- Outcomes of the external calls made by one request of the word-for-date
route (second, current version in `src/unnamed/part_000`).  Each field is the
behaviour of one external call: `Except.error ()` models the call throwing,
`Except.ok` its return value.  `hfAvailable` is
`HuggingFaceWordGenerator.isAvailable()` (the API key being configured). -/
structure Env where
  checkConnection : Except Unit Bool
  getWordByDate : Except Unit (Option WordData)
  hfAvailable : Bool
  generateWord : Except Unit (Option GeneratedWord)
  saveWord : Except Unit (Option WordData)

/-- External-call counts of one request: AI generation calls
(`HuggingFaceWordGenerator.generateWord`) and store save attempts
(`WordsDatabase.saveWord`). -/
structure Trace where
  aiCalls : Nat
  saveCalls : Nat
deriving DecidableEq, Repr

/-- The Smart Word Bank fallback candidate built at the end of
`generateWordWithSmartBank` (tagged `source = "curated"`). -/
def smartCurated (date : String) : WordData :=
  let smartWord := SmartWordBank.getWordForDate date
  { date := date, word := smartWord.word, phonetic := smartWord.phonetic,
    definition := smartWord.definition, translation := smartWord.translation,
    examples := smartWord.examples, level := smartWord.level,
    source := "curated" }

/-- `generateWordWithSmartBank` of the current route version: try AI
generation when available (its exceptions are caught in place), accept the
AI word only when truthy and longer than 3 characters (tag `"ai"`), and
otherwise fall back to the Smart Word Bank (tag `"curated"`).  The second
component counts the AI generation calls made. -/
def generateWordWithSmartBank (env : Env) (date : String) : WordData × Nat :=
  if env.hfAvailable then
    match env.generateWord with
    | Except.ok (some aiWord) =>
      if aiWord.word ≠ "" ∧ aiWord.word.length > 3 then
        ({ date := date, word := aiWord.word, phonetic := aiWord.phonetic,
           definition := aiWord.definition, translation := aiWord.translation,
           examples := aiWord.examples, level := aiWord.level,
           source := "ai" }, 1)
      else (smartCurated date, 1)
    | Except.ok none => (smartCurated date, 1)
    | Except.error _ => (smartCurated date, 1)
  else (smartCurated date, 0)

/-- A route response: a JSON word record (status 200) or the 400 rejection
of a malformed date. -/
inductive Response where
  | ok (w : WordData) : Response
  | badRequest : Response
deriving DecidableEq, Repr

/-- The hard-coded last-line-of-defence record of the route's catch block. -/
def hardcodedWord (date : String) : WordData :=
  { date := date, word := "resilient", phonetic := "/rɪˈzɪliənt/",
    definition := "Able to recover quickly from difficult conditions",
    translation := "resistente, resiliente",
    examples := ["We need to be resilient in difficult times.",
      "The app is resilient and works even offline.",
      "Your learning journey requires resilient effort."],
    level := "B2", source := "hardcoded" }

/-- The route's top-level catch block: build an emergency record from the
Smart Word Bank selection (tag `"emergency"`); if that selection itself
throws (the argument is `Except.error ()`), answer with the hard-coded
record. -/
def catchBlock (date : String) (selection : Except Unit GeneratedWord) :
    Response :=
  match selection with
  | Except.ok emergencyWord =>
    let wordWithSource : WordData :=
      { date := date, word := emergencyWord.word,
        phonetic := emergencyWord.phonetic,
        definition := emergencyWord.definition,
        translation := emergencyWord.translation,
        examples := emergencyWord.examples, level := emergencyWord.level,
        source := "emergency" }
    Response.ok wordWithSource
  | Except.error _ => Response.ok (hardcodedWord date)

/-- The body of the route's top-level `try` (current route version): date
regex check, connectivity check (its own exceptions treated as
disconnected), existing-row lookup (exceptions leave it `null`), generation,
best-effort save, and `savedWord || newWordData`.  In this model every
exception of the four external steps is handled by the inner catch shown in
the source, so the body is a total function. -/
def routeBody (env : Env) (date : String) : Response × Trace :=
  if matchesDateRe date = false then (Response.badRequest, ⟨0, 0⟩)
  else
    let isConnected :=
      match env.checkConnection with
      | Except.ok b => b
      | Except.error _ => false
    if isConnected = false then
      (Response.ok
        { FallbackWordsSystem.getWordByDate date with
            source := "database_unavailable" }, ⟨0, 0⟩)
    else
      let existingWord : Option WordData :=
        match env.getWordByDate with
        | Except.ok r => r
        | Except.error _ => none
      match existingWord with
      | some w => (Response.ok w, ⟨0, 0⟩)
      | none =>
        let gen := generateWordWithSmartBank env date
        let savedWord : Option WordData :=
          match env.saveWord with
          | Except.ok r => r
          | Except.error _ => none
        (Response.ok (savedWord.getD gen.1), ⟨gen.2, 1⟩)

/-- The route's top-level `try`/`catch`: a thrown body is answered by
`catchBlock` applied to the Smart Word Bank selection for the date (which,
being a total function, is passed as `Except.ok`). -/
def runCatch (date : String) (body : Except Unit (Response × Trace)) :
    Response × Trace :=
  match body with
  | Except.ok r => r
  | Except.error _ =>
    (catchBlock date (Except.ok (SmartWordBank.getWordForDate date)), ⟨0, 0⟩)

/-- The GET handler of the word-for-date route (current version), with its
external-call trace.  The body never throws in this model (all of its
external steps carry their own catch), hence it enters `runCatch` as
`Except.ok`. -/
def wordGETrun (env : Env) (date : String) : Response × Trace :=
  runCatch date (Except.ok (routeBody env date))

/-- Two successive requests for the same date against the same store state
(legitimate whenever the first request performs no store write). -/
def resolveTwice (env : Env) (date : String) :
    (Response × Trace) × (Response × Trace) :=
  (wordGETrun env date, wordGETrun env date)

/-- JavaScript `parseInt` on a radix-10 string: skip leading whitespace,
read an optional sign and then a maximal digit prefix; `none` models `NaN`
(no digits found). -/
def jsParseInt (s : String) : Option Int :=
  let cs := skipWs s.data
  let signed : Bool × List Char :=
    match cs with
    | '-' :: rest => (true, rest)
    | '+' :: rest => (false, rest)
    | _ => (false, cs)
  let ds := signed.2.takeWhile Char.isDigit
  if ds.isEmpty then none
  else
    let n : Int := Int.ofNat (jsParseIntDigits ds)
    some (if signed.1 then -n else n)

/-- The `days` computation of the history route,
`Math.min(Number.parseInt(searchParams.get("days") || "30"), 60)`: `none`
as input models an absent parameter (and the `|| "30"` default also fires
on an empty string); `none` as output models `NaN`. -/
def historyDaysOf (daysParam : Option String) : Option Int :=
  let raw :=
    match daysParam with
    | none => "30"
    | some s => if s = "" then "30" else s
  match jsParseInt raw with
  | some n => some (min n 60)
  | none => none

/-- Outcomes of the external calls of one history-route request. -/
structure HistoryEnv where
  checkConnection : Except Unit Bool
  dbRecent : Except Unit (List WordData)

/-- The GET handler of `src/app/api/words/history/route.ts`: compute `days`,
check connectivity, serve the database rows when there are any, and fall
back to the static catalog otherwise; any exception reaching the top-level
catch is answered with the 30-day fallback slice.  The handler always
answers with an array. -/
def historyGET (env : HistoryEnv) (daysParam : Option String) :
    List WordData :=
  let days := historyDaysOf daysParam
  match env.checkConnection with
  | Except.error _ => FallbackWordsSystem.getRecentWords (some 30)
  | Except.ok isConnected =>
    if isConnected = false then FallbackWordsSystem.getRecentWords days
    else
      match env.dbRecent with
      | Except.error _ => FallbackWordsSystem.getRecentWords (some 30)
      | Except.ok wordsFromDB =>
        if wordsFromDB.length > 0 then wordsFromDB
        else FallbackWordsSystem.getRecentWords days

/-- Outcomes of the external calls of one search-route request. -/
structure SearchEnv where
  checkConnection : Except Unit Bool
  dbSearch : Except Unit (List WordData)

/-- A search/history style response: a JSON array or the 400 rejection. -/
inductive ListResponse where
  | ok (ws : List WordData) : ListResponse
  | badRequest : ListResponse
deriving DecidableEq, Repr

/-- The GET handler of `src/app/api/words/search/route.ts`: reject a missing
or too-short query with a 400; when the store is reachable, serve its
matches if there are any and otherwise search the static catalog; a
disconnected store searches the static catalog directly; an exception
reaching the top-level catch searches the static catalog with the raw
(untrimmed) query. -/
def searchGET (env : SearchEnv) (q : Option String) : ListResponse :=
  match q with
  | none => ListResponse.badRequest
  | some query =>
    if (strTrim query).length < 2 then ListResponse.badRequest
    else
      match env.checkConnection with
      | Except.error _ =>
        ListResponse.ok (FallbackWordsSystem.searchWords query)
      | Except.ok isConnected =>
        if isConnected = false then
          ListResponse.ok (FallbackWordsSystem.searchWords (strTrim query))
        else
          match env.dbSearch with
          | Except.error _ =>
            ListResponse.ok (FallbackWordsSystem.searchWords query)
          | Except.ok words =>
            if words.length > 0 then ListResponse.ok words
            else
              ListResponse.ok (FallbackWordsSystem.searchWords (strTrim query))

/-- A JavaScript JSON value as produced by `JSON.parse` (numbers restricted
to the integers, which covers every payload the embedded code handles). -/
inductive JVal where
  | jnull : JVal
  | jbool (b : Bool) : JVal
  | jnum (n : Int) : JVal
  | jstr (s : String) : JVal
  | jarr (xs : List JVal) : JVal
  | jobj (fields : List (String × JVal)) : JVal
deriving Repr, Inhabited

/-- JavaScript truthiness of a possibly absent property value (`none` is
`undefined`). -/
def jtruthy : Option JVal → Bool
  | none => false
  | some JVal.jnull => false
  | some (JVal.jbool b) => b
  | some (JVal.jnum n) => n ≠ 0
  | some (JVal.jstr s) => s ≠ ""
  | some (JVal.jarr _) => true
  | some (JVal.jobj _) => true

/-- Property access `v.k` on a parsed JSON value (`none` is `undefined`;
with duplicate keys the last one wins, as in `JSON.parse`). -/
def jget (v : JVal) (k : String) : Option JVal :=
  match v with
  | JVal.jobj fields =>
    fields.foldl (fun acc kv => if kv.1 = k then some kv.2 else acc) none
  | _ => none

/-- JavaScript string coercion of a JSON value, as in the template literal
of `parseJSONResponse` (arrays and objects do not occur there in practice;
they are given their `Array.prototype.toString`-free placeholders). -/
def jsToStr : JVal → String
  | JVal.jstr s => s
  | JVal.jnum n => toString n
  | JVal.jbool b => if b then "true" else "false"
  | JVal.jnull => "null"
  | JVal.jarr _ => ""
  | JVal.jobj _ => "[object Object]"

/-- Read the characters of a JSON string literal after its opening quote,
returning the decoded characters and the remainder after the closing
quote. -/
def parseStrChars (fuel : Nat) (cs : List Char) :
    Option (List Char × List Char) :=
  match fuel, cs with
  | 0, _ => none
  | _, [] => none
  | f + 1, c :: rest =>
    if c = '"' then some ([], rest)
    else if c = '\\' then
      match rest with
      | [] => none
      | e :: rest2 =>
        let dec : Option Char :=
          if e = '"' then some '"'
          else if e = '\\' then some '\\'
          else if e = '/' then some '/'
          else if e = 'n' then some '\n'
          else if e = 't' then some '\t'
          else if e = 'r' then some '\r'
          else none
        match dec with
        | some d =>
          match parseStrChars f rest2 with
          | some (s, r) => some (d :: s, r)
          | none => none
        | none => none
    else
      match parseStrChars f rest with
      | some (s, r) => some (c :: s, r)
      | none => none

/-- Read an integer JSON number (optional minus sign and a digit run). -/
def parseNum (cs : List Char) : Option (Int × List Char) :=
  let signed : Bool × List Char :=
    match cs with
    | '-' :: r => (true, r)
    | _ => (false, cs)
  let ds := signed.2.takeWhile Char.isDigit
  let rest := signed.2.dropWhile Char.isDigit
  if ds.isEmpty then none
  else
    let n : Int := Int.ofNat (jsParseIntDigits ds)
    some (if signed.1 then -n else n, rest)

/-- The opening brace character (written by code to keep brace characters
out of the source text). -/
def obrace : Char := Char.ofNat 123

/-- The closing brace character. -/
def cbrace : Char := Char.ofNat 125

/-- The backtick character. -/
def btick : Char := Char.ofNat 96

mutual

/-- Parse one JSON value (fuel-indexed recursive descent; the fuel passed by
`jsonParseChars` always suffices for the inputs at hand). -/
def parseVal (fuel : Nat) (cs : List Char) : Option (JVal × List Char) :=
  match fuel with
  | 0 => none
  | f + 1 =>
    match skipWs cs with
    | [] => none
    | c :: rest =>
      if c = '"' then
        match parseStrChars (rest.length + 1) rest with
        | some (s, r) => some (JVal.jstr (String.mk s), r)
        | none => none
      else if c = '[' then
        match skipWs rest with
        | ']' :: r2 => some (JVal.jarr [], r2)
        | _ =>
          match parseItems f rest with
          | some (xs, r2) => some (JVal.jarr xs, r2)
          | none => none
      else if c = obrace then
        match skipWs rest with
        | d :: r2 =>
          if d = cbrace then some (JVal.jobj [], r2)
          else
            match parseFields f rest with
            | some (fs, r2) => some (JVal.jobj fs, r2)
            | none => none
        | [] => none
      else if c = 't' then
        if ['r', 'u', 'e'].isPrefixOf rest then
          some (JVal.jbool true, rest.drop 3)
        else none
      else if c = 'f' then
        if ['a', 'l', 's', 'e'].isPrefixOf rest then
          some (JVal.jbool false, rest.drop 4)
        else none
      else if c = 'n' then
        if ['u', 'l', 'l'].isPrefixOf rest then
          some (JVal.jnull, rest.drop 3)
        else none
      else
        match parseNum (c :: rest) with
        | some (n, r) => some (JVal.jnum n, r)
        | none => none

/-- Parse the comma-separated items of a JSON array up to `]`. -/
def parseItems (fuel : Nat) (cs : List Char) :
    Option (List JVal × List Char) :=
  match fuel with
  | 0 => none
  | f + 1 =>
    match parseVal f cs with
    | none => none
    | some (v, r) =>
      match skipWs r with
      | ',' :: r2 =>
        match parseItems f r2 with
        | some (xs, r3) => some (v :: xs, r3)
        | none => none
      | ']' :: r2 => some ([v], r2)
      | _ => none

/-- Parse the comma-separated key/value fields of a JSON object up to the
closing brace. -/
def parseFields (fuel : Nat) (cs : List Char) :
    Option (List (String × JVal) × List Char) :=
  match fuel with
  | 0 => none
  | f + 1 =>
    match skipWs cs with
    | k :: r =>
      if k = '"' then
        match parseStrChars (r.length + 1) r with
        | none => none
        | some (key, r2) =>
          match skipWs r2 with
          | ':' :: r3 =>
            match parseVal f r3 with
            | none => none
            | some (v, r4) =>
              match skipWs r4 with
              | ',' :: r5 =>
                match parseFields f r5 with
                | some (fs, r6) => some ((String.mk key, v) :: fs, r6)
                | none => none
              | d :: r5 =>
                if d = cbrace then some ([(String.mk key, v)], r5)
                else none
              | [] => none
          | _ => none
      else none
    | [] => none

end

/-- `JSON.parse` on a character list: one value, optionally surrounded by
whitespace, with nothing after it. -/
def jsonParseChars (cs : List Char) : Option JVal :=
  match parseVal (2 * cs.length + 2) cs with
  | some (v, rest) => if skipWs rest = [] then some v else none
  | none => none

/-- One global-replace pass of `text.replace(/<tag>\s*/g, "")`: every
occurrence of the tag together with the whitespace following it is removed,
scanning left to right.  The fuel (one unit per examined character) makes
the recursion structural; `replaceFence` supplies enough of it. -/
def replaceFenceAux (tag : List Char) (fuel : Nat) (cs : List Char) :
    List Char :=
  match fuel, cs with
  | 0, cs => cs
  | _, [] => []
  | f + 1, c :: rest =>
    if tag.isPrefixOf (c :: rest) then
      replaceFenceAux tag f (skipWs ((c :: rest).drop tag.length))
    else c :: replaceFenceAux tag f rest

/-- `text.replace(/<tag>\s*/g, "")`. -/
def replaceFence (tag : List Char) (cs : List Char) : List Char :=
  replaceFenceAux tag cs.length cs

/-- The tag of the regex `/```json\s*/g`. -/
def fenceJsonTag : List Char := [btick, btick, btick, 'j', 's', 'o', 'n']

/-- The tag of the regex `/```\s*/g`. -/
def fenceTag : List Char := [btick, btick, btick]

/-- Index of the first occurrence of a character (JavaScript `indexOf`,
with `none` for `-1`). -/
def idxOfChar (c : Char) (cs : List Char) : Option Nat :=
  cs.findIdx? (fun d => d = c)

/-- Index of the last occurrence of a character (JavaScript `lastIndexOf`,
with `none` for `-1`). -/
def lastIdxOfChar (c : Char) (cs : List Char) : Option Nat :=
  match idxOfChar c cs.reverse with
  | some k => some (cs.length - 1 - k)
  | none => none

/-- The brace-extraction step of `parseJSONResponse`: when a first opening
brace strictly precedes a last closing brace, keep exactly the characters
from the one to the other; otherwise leave the text unchanged. -/
def extractBraces (cs : List Char) : List Char :=
  match idxOfChar obrace cs, lastIdxOfChar cbrace cs with
  | some jsonStart, some jsonEnd =>
    if jsonStart < jsonEnd then (cs.drop jsonStart).take (jsonEnd + 1 - jsonStart)
    else cs
  | _, _ => cs

/-- The record built by `parseJSONResponse` (the source assigns the parsed
JSON properties without further coercion, so the fields stay JSON
values). -/
structure GeneratedWordJ where
  word : JVal
  phonetic : JVal
  definition : JVal
  translation : JVal
  examples : List JVal
  level : JVal
deriving Repr, Inhabited

/-- The validation step of `parseJSONResponse`: require truthy `word`,
`definition` and `translation` and an `examples` array of length at least 2;
then default a falsy `phonetic` to the `/word/` template, default a falsy
`level` to `"B2"`, and keep at most 3 examples. -/
def validateParsed (parsed : JVal) : Option GeneratedWordJ :=
  let examplesOk : Bool :=
    match jget parsed "examples" with
    | some (JVal.jarr xs) => decide (xs.length ≥ 2)
    | _ => false
  if jtruthy (jget parsed "word") && jtruthy (jget parsed "definition") &&
      jtruthy (jget parsed "translation") && examplesOk then
    let wordV := (jget parsed "word").getD JVal.jnull
    some
      { word := wordV,
        phonetic :=
          if jtruthy (jget parsed "phonetic") then
            (jget parsed "phonetic").getD JVal.jnull
          else JVal.jstr ("/" ++ jsToStr wordV ++ "/"),
        definition := (jget parsed "definition").getD JVal.jnull,
        translation := (jget parsed "translation").getD JVal.jnull,
        examples :=
          match jget parsed "examples" with
          | some (JVal.jarr xs) => xs.take 3
          | _ => [],
        level :=
          if jtruthy (jget parsed "level") then
            (jget parsed "level").getD JVal.jnull
          else JVal.jstr "B2" }
  else none

/-- `HuggingFaceWordGenerator.parseJSONResponse`: trim, strip markdown code
fences, cut from the first opening brace to the last closing brace, parse
the slice as JSON and validate it; every failure (including a `JSON.parse`
exception, caught in the source) yields `none`. -/
def parseJSONResponse (text : String) : Option GeneratedWordJ :=
  let cleanText0 := jsTrim text.data
  let cleanText1 := replaceFence fenceJsonTag cleanText0
  let cleanText2 := replaceFence fenceTag cleanText1
  let cleanText := extractBraces cleanText2
  match jsonParseChars cleanText with
  | none => none
  | some parsed => validateParsed parsed

/-- The `fetch` response of the random-word API: the `ok` flag and the
outcome of `response.json()` (which can itself throw). -/
structure SeedResp where
  ok : Bool
  body : Except Unit JVal

/-- Outcomes of the external calls of one `generateWord` invocation:
whether the client is configured, the seed-word fetch, and the chat
completion (`Except.ok none` models a response without usable
`choices[0].message.content`, `Except.ok (some c)` the content string). -/
structure GenEnv where
  hfClient : Bool
  seedOutcome : Except Unit SeedResp
  chatOutcome : Except Unit (Option String)

/-- External-call counts of one `generateWord` invocation. -/
structure GenTrace where
  seedFetches : Nat
  chatCalls : Nat
deriving DecidableEq, Repr

/-- `HuggingFaceWordGenerator.getRandomWord` with its fetch count: the whole
body sits in a `try`/`catch`, a non-ok status or a payload that is not a
non-empty array with a string head yields `null`, and a hit lower-cases the
head. -/
def getRandomWordRun (env : GenEnv) : Option String × Nat :=
  (match env.seedOutcome with
   | Except.error _ => none
   | Except.ok resp =>
     if resp.ok = false then none
     else
       match resp.body with
       | Except.error _ => none
       | Except.ok data =>
         match data with
         | JVal.jarr (JVal.jstr s :: _) => some (strLower s)
         | _ => none, 1)

/-- `HuggingFaceWordGenerator.generateWord` with its external-call trace:
short-circuit without any call when no client is configured; stop after a
failed seed fetch; otherwise make exactly one chat-completion call (its
exceptions caught in place) and parse the content, every failure giving
`null`. -/
def generateWordRun (env : GenEnv) : Option GeneratedWordJ × GenTrace :=
  if env.hfClient = false then (none, ⟨0, 0⟩)
  else
    match getRandomWordRun env with
    | (none, n) => (none, ⟨n, 0⟩)
    | (some _, n) =>
      match env.chatOutcome with
      | Except.error _ => (none, ⟨n, 1⟩)
      | Except.ok none => (none, ⟨n, 1⟩)
      | Except.ok (some responseContent) =>
        if responseContent = "" then (none, ⟨n, 1⟩)
        else (parseJSONResponse responseContent, ⟨n, 1⟩)

/-- C1: for every date string matching `YYYY-MM-DD`, the word-for-date GET
handler never propagates an error: for every environment of external-call
outcomes the answer is a word record (never an error); a body that threw is
answered through the catch block with the deterministically selected Smart
Word Bank record tagged `"emergency"`; and if that selection itself throws,
the catch block answers with the fixed hard-coded record, whose word is
`"resilient"` and whose tag is `"hardcoded"`. -/
theorem c1_handler_never_propagates (env : Env) (date : String)
    (hre : matchesDateRe date = true) :
    (∃ w, (wordGETrun env date).1 = Response.ok w) ∧
    (runCatch date (Except.error ())).1 =
      Response.ok
        { date := date, word := (SmartWordBank.getWordForDate date).word,
          phonetic := (SmartWordBank.getWordForDate date).phonetic,
          definition := (SmartWordBank.getWordForDate date).definition,
          translation := (SmartWordBank.getWordForDate date).translation,
          examples := (SmartWordBank.getWordForDate date).examples,
          level := (SmartWordBank.getWordForDate date).level,
          source := "emergency" } ∧
    catchBlock date (Except.error ()) = Response.ok (hardcodedWord date) ∧
    (hardcodedWord date).word = "resilient" ∧
    (hardcodedWord date).source = "hardcoded" := by
  refine ⟨?_, rfl, rfl, rfl, rfl⟩
  unfold wordGETrun runCatch routeBody
  simp only [hre]
  rcases hc : env.checkConnection with u | b
  · exact ⟨_, rfl⟩
  · cases b
    · simp only []
      exact ⟨_, rfl⟩
    · rcases hg : env.getWordByDate with u | o
      · simp only []
        exact ⟨_, rfl⟩
      · cases o <;> simp only [] <;> exact ⟨_, rfl⟩

/-- C1 witness: the guarantees at the concrete date `"0000-00-00"` and a
fully failing environment. -/
theorem c1_handler_never_propagates_witness :
    (∃ w,
      (wordGETrun
        ⟨Except.error (), Except.error (), true, Except.error (),
          Except.error ()⟩ "0000-00-00").1 = Response.ok w) ∧
    (runCatch "0000-00-00" (Except.error ())).1 =
      Response.ok
        { date := "0000-00-00",
          word := (SmartWordBank.getWordForDate "0000-00-00").word,
          phonetic := (SmartWordBank.getWordForDate "0000-00-00").phonetic,
          definition := (SmartWordBank.getWordForDate "0000-00-00").definition,
          translation :=
            (SmartWordBank.getWordForDate "0000-00-00").translation,
          examples := (SmartWordBank.getWordForDate "0000-00-00").examples,
          level := (SmartWordBank.getWordForDate "0000-00-00").level,
          source := "emergency" } ∧
    catchBlock "0000-00-00" (Except.error ()) =
      Response.ok (hardcodedWord "0000-00-00") ∧
    (hardcodedWord "0000-00-00").word = "resilient" ∧
    (hardcodedWord "0000-00-00").source = "hardcoded" :=
  c1_handler_never_propagates
    ⟨Except.error (), Except.error (), true, Except.error (), Except.error ()⟩
    "0000-00-00" rfl

/-- C2: on a valid date, a disconnected store (the connectivity check
returning `false` or throwing) makes the pipeline answer immediately with
the deterministically selected fallback record tagged
`"database_unavailable"`, with zero AI-generation calls and zero save
attempts. -/
theorem c2_disconnected_skips_generation (env : Env) (date : String)
    (hre : matchesDateRe date = true)
    (hconn : env.checkConnection = Except.ok false ∨
      env.checkConnection = Except.error ()) :
    wordGETrun env date =
      (Response.ok
        { FallbackWordsSystem.getWordByDate date with
            source := "database_unavailable" }, ⟨0, 0⟩) := by
  unfold wordGETrun runCatch routeBody
  rcases hconn with hconn | hconn <;> simp [hre, hconn]

/-- C2 witness: the concrete date `"2024-01-07"` against a store whose
connectivity check returns `false`. -/
theorem c2_disconnected_skips_generation_witness :
    wordGETrun
      ⟨Except.ok false, Except.ok none, true, Except.ok none, Except.ok none⟩
      "2024-01-07" =
      (Response.ok
        { FallbackWordsSystem.getWordByDate "2024-01-07" with
            source := "database_unavailable" }, ⟨0, 0⟩) :=
  c2_disconnected_skips_generation
    ⟨Except.ok false, Except.ok none, true, Except.ok none, Except.ok none⟩
    "2024-01-07" rfl (Or.inl rfl)

/-- C3: on a valid date, with the store connected and already holding a row
for the date, the pipeline answers with that stored row verbatim, makes no
AI call and no save attempt; resolving the same date twice against the
unchanged store returns the same row unchanged both times. -/
theorem c3_existing_row_idempotent (env : Env) (date : String) (w : WordData)
    (hre : matchesDateRe date = true)
    (hconn : env.checkConnection = Except.ok true)
    (hfound : env.getWordByDate = Except.ok (some w)) :
    resolveTwice env date =
      ((Response.ok w, ⟨0, 0⟩), (Response.ok w, ⟨0, 0⟩)) := by
  unfold resolveTwice wordGETrun runCatch routeBody
  simp [hre, hconn, hfound]

/-- C3 witness: the stored row for `"2024-01-01"` is echoed twice. -/
theorem c3_existing_row_idempotent_witness :
    resolveTwice
      ⟨Except.ok true,
        Except.ok (some
          { date := "2024-01-01", word := "stored", phonetic := "/s/",
            definition := "d", translation := "t", examples := ["e1"],
            level := "B2", source := "ai" }), true, Except.ok none,
        Except.ok none⟩ "2024-01-01" =
      ((Response.ok
        { date := "2024-01-01", word := "stored", phonetic := "/s/",
          definition := "d", translation := "t", examples := ["e1"],
          level := "B2", source := "ai" }, ⟨0, 0⟩),
       (Response.ok
        { date := "2024-01-01", word := "stored", phonetic := "/s/",
          definition := "d", translation := "t", examples := ["e1"],
          level := "B2", source := "ai" }, ⟨0, 0⟩)) :=
  c3_existing_row_idempotent _ "2024-01-01" _ rfl rfl rfl

/-- C5: on a valid date with a connected store and no stored row, a failed
save (returning `null` or throwing) still answers with the freshly produced
candidate itself, whose `source` is exactly the one assigned by the
generation step (`"ai"` or `"curated"`), never a persistence-failure tag. -/
theorem c5_save_best_effort (env : Env) (date : String)
    (hre : matchesDateRe date = true)
    (hconn : env.checkConnection = Except.ok true)
    (hnone : env.getWordByDate = Except.ok none)
    (hsave : env.saveWord = Except.ok none ∨
      env.saveWord = Except.error ()) :
    (wordGETrun env date).1 =
      Response.ok (generateWordWithSmartBank env date).1 ∧
    ((generateWordWithSmartBank env date).1.source = "ai" ∨
     (generateWordWithSmartBank env date).1.source = "curated") := by
  constructor
  · unfold wordGETrun runCatch routeBody
    rcases hsave with hsave | hsave <;> simp [hre, hconn, hnone, hsave]
  · unfold generateWordWithSmartBank
    cases hav : env.hfAvailable
    · exact Or.inr rfl
    · rcases hg : env.generateWord with u | o
      · exact Or.inr rfl
      · rcases o with _ | g
        · exact Or.inr rfl
        · simp only []
          by_cases hcond : g.word ≠ "" ∧ g.word.length > 3
          · rw [if_pos hcond]
            exact Or.inl rfl
          · rw [if_neg hcond]
            exact Or.inr rfl

/-- C5 witness: with no AI credential and a save that returns `null`, the
answer for `"2024-01-02"` is the curated candidate itself. -/
theorem c5_save_best_effort_witness :
    ((wordGETrun
      ⟨Except.ok true, Except.ok none, false, Except.ok none, Except.ok none⟩
      "2024-01-02").1 =
      Response.ok
        (generateWordWithSmartBank
          ⟨Except.ok true, Except.ok none, false, Except.ok none,
            Except.ok none⟩ "2024-01-02").1) ∧
    ((generateWordWithSmartBank
        ⟨Except.ok true, Except.ok none, false, Except.ok none,
          Except.ok none⟩ "2024-01-02").1.source = "ai" ∨
     (generateWordWithSmartBank
        ⟨Except.ok true, Except.ok none, false, Except.ok none,
          Except.ok none⟩ "2024-01-02").1.source = "curated") :=
  c5_save_best_effort _ "2024-01-02" rfl rfl rfl (Or.inl rfl)

/-- The C4 scenario environment: connected store, no stored row, no AI
credential, and an upsert that echoes the saved candidate row. -/
def envNoCredential : Env :=
  { checkConnection := Except.ok true, getWordByDate := Except.ok none,
    hfAvailable := false, generateWord := Except.ok none,
    saveWord := Except.ok (some (smartCurated "2025-06-15")) }

/-- C4 counterexample: the claim's concrete prediction fails on the code.
Resolving `2025-06-15` with a connected empty store and no AI credential
returns the curated word `"substantial"`; the catalog has 28 entries, not
30; `(2025+6+15) mod 30` is `6`, not `16`; and the word at index 16 is
`"distinctive"`, not the returned one. -/
theorem c4_claimed_index_counterexample :
    (wordGETrun envNoCredential "2025-06-15").1 =
      Response.ok (smartCurated "2025-06-15") ∧
    (smartCurated "2025-06-15").word = "substantial" ∧
    SmartWordBank.words.length = 28 ∧ (28 : Nat) ≠ 30 ∧
    (2025 + 6 + 15) % 30 = 6 ∧ (6 : Nat) ≠ 16 ∧
    (SmartWordBank.words.getD 16 default).word = "distinctive" ∧
    ("substantial" : String) ≠ "distinctive" := by
  refine ⟨rfl, rfl, rfl, by decide, by decide, by decide, rfl, by decide⟩

/-- C4 (amended): with no stored row, an AI candidate whose word is truthy
and longer than 3 characters is adopted with `source = "ai"`; in every
other case (no credential, generation returning `null` or throwing, or a
too-short word) the candidate is the deterministic Smart Word Bank
selection with `source = "curated"`.  In the claim's scenario the catalog
has 28 entries and resolving `2025-06-15` yields the curated word at index
`(2025+6+15) mod 28 = 2`, namely `"substantial"`. -/
theorem c4_candidate_source (env : Env) (date : String)
    (hre : matchesDateRe date = true)
    (hconn : env.checkConnection = Except.ok true)
    (hnone : env.getWordByDate = Except.ok none) :
    (∀ g : GeneratedWord, env.hfAvailable = true →
      env.generateWord = Except.ok (some g) →
      g.word ≠ "" → g.word.length > 3 →
      (generateWordWithSmartBank env date).1.source = "ai" ∧
      (generateWordWithSmartBank env date).1.word = g.word) ∧
    ((env.hfAvailable = false ∨ env.generateWord = Except.ok none ∨
        env.generateWord = Except.error () ∨
        (∀ g : GeneratedWord, env.generateWord = Except.ok (some g) →
          ¬(g.word ≠ "" ∧ g.word.length > 3))) →
      (generateWordWithSmartBank env date).1 = smartCurated date ∧
      (smartCurated date).source = "curated") ∧
    (wordGETrun envNoCredential "2025-06-15").1 =
      Response.ok (smartCurated "2025-06-15") ∧
    (smartCurated "2025-06-15").word =
      (SmartWordBank.words.getD ((2025 + 6 + 15) % 28) default).word ∧
    (2025 + 6 + 15) % 28 = 2 ∧
    (smartCurated "2025-06-15").word = "substantial" ∧
    SmartWordBank.words.length = 28 := by
  refine ⟨?_, ?_, rfl, rfl, by decide, rfl, rfl⟩
  · intro g hav hg hw hl
    simp [generateWordWithSmartBank, hav, hg, hw, hl]
  · intro hcase
    refine ⟨?_, rfl⟩
    rcases hcase with hav | hg | hg | hshort
    · simp [generateWordWithSmartBank, hav]
    · cases hav : env.hfAvailable <;>
        simp [generateWordWithSmartBank, hav, hg]
    · cases hav : env.hfAvailable <;>
        simp [generateWordWithSmartBank, hav, hg]
    · cases hav : env.hfAvailable
      · simp [generateWordWithSmartBank, hav]
      · rcases hg : env.generateWord with u | o
        · simp [generateWordWithSmartBank, hav, hg]
        · rcases o with _ | g
          · simp [generateWordWithSmartBank, hav, hg]
          · have hng := hshort g hg
            rw [not_and_or] at hng
            rcases hng with hng | hng
            · rw [not_not] at hng
              simp [generateWordWithSmartBank, hav, hg, hng]
            · simp [generateWordWithSmartBank, hav, hg, hng]

/-- C4 witness: the amended claim instantiated at the scenario environment
itself (the general branch conjuncts applied to its `hfAvailable = false`
case). -/
theorem c4_candidate_source_witness :
    (generateWordWithSmartBank envNoCredential "2025-06-15").1 =
      smartCurated "2025-06-15" ∧
    (smartCurated "2025-06-15").source = "curated" :=
  (c4_candidate_source envNoCredential "2025-06-15" rfl rfl rfl).2.1
    (Or.inl rfl)

/-- A decimal digit is not the dash separator. -/
theorem isDigit_ne_dash {c : Char} (h : c.isDigit = true) : ¬(c = '-') := by
  intro he
  subst he
  exact absurd h (by decide)

/-- Splitting a ten-character `YYYY-MM-DD` shape at the dashes yields
exactly the three components. -/
theorem splitSep_date (a b c d e f g i : Char)
    (ha : ¬(a = '-')) (hb : ¬(b = '-')) (hc : ¬(c = '-')) (hd : ¬(d = '-'))
    (he : ¬(e = '-')) (hf : ¬(f = '-')) (hg : ¬(g = '-'))
    (hi : ¬(i = '-')) :
    splitSep '-' [a, b, c, d, '-', e, f, '-', g, i] =
      [[a, b, c, d], [e, f], [g, i]] := by
  simp [splitSep, splitSepAux, ha, hb, hc, hd, he, hf, hg, hi]

/-- On a date string matching the route regex, the hash of the selectors is
the sum of the numeric values of the year, month and day components (the
characters at positions 0–3, 5–6 and 8–9). -/
theorem dateHashOf_components (s : String) (h : matchesDateRe s = true) :
    dateHashOf s =
      jsParseIntDigits (s.data.take 4) +
      jsParseIntDigits ((s.data.drop 5).take 2) +
      jsParseIntDigits (s.data.drop 8) := by
  obtain ⟨cs⟩ := s
  unfold matchesDateRe at h
  rcases cs with _ | ⟨a, cs⟩
  · exact Bool.noConfusion h
  rcases cs with _ | ⟨b, cs⟩
  · exact Bool.noConfusion h
  rcases cs with _ | ⟨c, cs⟩
  · exact Bool.noConfusion h
  rcases cs with _ | ⟨d, cs⟩
  · exact Bool.noConfusion h
  rcases cs with _ | ⟨h1, cs⟩
  · exact Bool.noConfusion h
  rcases cs with _ | ⟨e, cs⟩
  · exact Bool.noConfusion h
  rcases cs with _ | ⟨f, cs⟩
  · exact Bool.noConfusion h
  rcases cs with _ | ⟨h2, cs⟩
  · exact Bool.noConfusion h
  rcases cs with _ | ⟨g, cs⟩
  · exact Bool.noConfusion h
  rcases cs with _ | ⟨i, cs⟩
  · exact Bool.noConfusion h
  rcases cs with _ | ⟨x, cs⟩
  · simp only [Bool.and_eq_true, decide_eq_true_eq] at h
    obtain ⟨⟨⟨⟨⟨⟨⟨⟨⟨ha, hb⟩, hc⟩, hd⟩, h1d⟩, he⟩, hf⟩, h2d⟩, hg⟩, hi⟩ := h
    subst h1d
    subst h2d
    unfold dateHashOf
    show ((splitSep '-' [a, b, c, d, '-', e, f, '-', g, i]).map
      jsParseIntDigits).sum = _
    rw [splitSep_date a b c d e f g i
      (isDigit_ne_dash ha) (isDigit_ne_dash hb) (isDigit_ne_dash hc)
      (isDigit_ne_dash hd) (isDigit_ne_dash he) (isDigit_ne_dash hf)
      (isDigit_ne_dash hg) (isDigit_ne_dash hi)]
    simp
    ring
  · exact Bool.noConfusion h

/-- C8: on every date matching `YYYY-MM-DD` and every non-empty catalog,
the deterministic selector indexes the catalog at the sum of the three
numeric date components modulo the catalog length (a position that always
exists, so the selection never fails), returning a copy of that entry with
its `date` field overwritten to the input date; the code's two fixed-catalog
selectors are exactly this selection applied to their catalogs (the Smart
Word Bank variant returns the entry itself, its record type carrying no
date field). -/
theorem c8_deterministic_selector (catalog : List WordData) (s : String)
    (hcat : catalog ≠ []) (hre : matchesDateRe s = true) :
    selectWordForDate catalog s =
      { catalog.getD
          ((jsParseIntDigits (s.data.take 4) +
            jsParseIntDigits ((s.data.drop 5).take 2) +
            jsParseIntDigits (s.data.drop 8)) % catalog.length) default
        with date := s } ∧
    dateHashOf s % catalog.length < catalog.length ∧
    (selectWordForDate catalog s).date = s ∧
    FallbackWordsSystem.getWordByDate s =
      selectWordForDate FallbackWordsSystem.fallbackWords s ∧
    SmartWordBank.getWordForDate s =
      SmartWordBank.words.getD
        (dateHashOf s % SmartWordBank.words.length) default := by
  refine ⟨?_, ?_, rfl, rfl, rfl⟩
  · unfold selectWordForDate
    rw [dateHashOf_components s hre]
  · exact Nat.mod_lt _ (List.length_pos.mpr hcat)

/-- C8 witness: the guarantees instantiated with the code's own fallback
catalog and the regex-valid (calendar-invalid) date `"2024-02-30"`. -/
theorem c8_deterministic_selector_witness :
    selectWordForDate FallbackWordsSystem.fallbackWords "2024-02-30" =
      { FallbackWordsSystem.fallbackWords.getD
          ((jsParseIntDigits (("2024-02-30" : String).data.take 4) +
            jsParseIntDigits ((("2024-02-30" : String).data.drop 5).take 2) +
            jsParseIntDigits (("2024-02-30" : String).data.drop 8)) %
            FallbackWordsSystem.fallbackWords.length) default
        with date := "2024-02-30" } ∧
    dateHashOf "2024-02-30" % FallbackWordsSystem.fallbackWords.length <
      FallbackWordsSystem.fallbackWords.length ∧
    (selectWordForDate FallbackWordsSystem.fallbackWords "2024-02-30").date =
      "2024-02-30" ∧
    FallbackWordsSystem.getWordByDate "2024-02-30" =
      selectWordForDate FallbackWordsSystem.fallbackWords "2024-02-30" ∧
    SmartWordBank.getWordForDate "2024-02-30" =
      SmartWordBank.words.getD
        (dateHashOf "2024-02-30" % SmartWordBank.words.length) default :=
  c8_deterministic_selector FallbackWordsSystem.fallbackWords "2024-02-30"
    (by decide) rfl

/-- C9 counterexample: the `days` parameter is not clamped below at 0.  The
request `days=-5` parses to `-5`, which is negative, and flows through to
the fallback slice (returning 7 of the 12 catalog entries via JavaScript's
negative `slice` end) instead of the 0 records a `[0, 60]` clamp would
produce. -/
theorem c9_no_lower_clamp_counterexample :
    historyDaysOf (some "-5") = some (-5) ∧ ((-5 : Int) < 0) ∧
    (historyGET ⟨Except.ok false, Except.ok []⟩ (some "-5")).length = 7 ∧
    FallbackWordsSystem.getRecentWords (some 0) = [] := by
  exact ⟨rfl, by decide, rfl, rfl⟩

/-- Each fallback history slice only contains catalog entries. -/
theorem getRecentWords_mem (days : Option Int) (w : WordData)
    (hw : w ∈ FallbackWordsSystem.getRecentWords days) :
    w ∈ FallbackWordsSystem.fallbackWords := by
  unfold FallbackWordsSystem.getRecentWords jsSliceTo at hw
  split at hw
  · exact absurd hw (by simp)
  · split at hw <;> exact List.take_subset _ _ hw

/-- C9 (amended): the history route's `days` is capped above at 60 and
defaults to 30 when the parameter is absent, but it is not clamped below
(negative values pass through); the endpoint always answers with an array
of word records, each coming from the store's result or from the fixed
fallback catalog. -/
theorem c9_days_cap_and_default (daysParam : Option String)
    (env : HistoryEnv) :
    historyDaysOf none = some 30 ∧
    (∀ n : Int, historyDaysOf daysParam = some n → n ≤ 60) ∧
    (∀ w ∈ historyGET env daysParam,
      w ∈ (match env.dbRecent with
            | Except.ok l => l
            | Except.error _ => ([] : List WordData)) ∨
      w ∈ FallbackWordsSystem.fallbackWords) := by
  refine ⟨by decide, ?_, ?_⟩
  · intro n hn
    rcases daysParam with _ | s
    · rw [show historyDaysOf none = some 30 by decide] at hn
      cases hn
      decide
    · by_cases hs : s = ""
      · subst hs
        rw [show historyDaysOf (some "") = some 30 by decide] at hn
        cases hn
        decide
      · have hred : historyDaysOf (some s) =
            match jsParseInt s with
            | some m => some (min m 60)
            | none => none := by
          simp [historyDaysOf, hs]
        rw [hred] at hn
        rcases hp : jsParseInt s with _ | m <;> rw [hp] at hn
        · cases hn
        · simp only [Option.some.injEq] at hn
          subst hn
          exact min_le_right _ _
  · intro w hw
    rcases hc : env.checkConnection with u | b
    · simp only [historyGET, hc] at hw
      exact Or.inr (getRecentWords_mem _ _ hw)
    · cases b
      · simp only [historyGET, hc, if_pos] at hw
        exact Or.inr (getRecentWords_mem _ _ hw)
      · simp only [historyGET, hc] at hw
        rw [if_neg (by decide : ¬(true = false))] at hw
        rcases hd : env.dbRecent with u | l
        · rw [hd] at hw
          simp only [] at hw
          exact Or.inr (getRecentWords_mem _ _ hw)
        · rw [hd] at hw
          simp only [] at hw
          by_cases hl : l.length > 0
          · rw [if_pos hl] at hw
            exact Or.inl hw
          · rw [if_neg hl] at hw
            exact Or.inr (getRecentWords_mem _ _ hw)

/-- C9 witness: the default for an absent parameter, the cap applied to
`days=100`, and the provenance of the catalog's first entry when served by
a disconnected history request. -/
theorem c9_days_cap_and_default_witness :
    historyDaysOf none = some 30 ∧ (60 : Int) ≤ 60 ∧
    ((FallbackWordsSystem.fallbackWords.getD 0 default) ∈
        (match (Except.ok ([] : List WordData) : Except Unit (List WordData))
          with
          | Except.ok l => l
          | Except.error _ => ([] : List WordData)) ∨
      (FallbackWordsSystem.fallbackWords.getD 0 default) ∈
        FallbackWordsSystem.fallbackWords) :=
  ⟨(c9_days_cap_and_default (some "100")
      ⟨Except.ok false, Except.ok []⟩).1,
   (c9_days_cap_and_default (some "100")
      ⟨Except.ok false, Except.ok []⟩).2.1 60 (by decide),
   (c9_days_cap_and_default (some "100")
      ⟨Except.ok false, Except.ok []⟩).2.2
     (FallbackWordsSystem.fallbackWords.getD 0 default) (by decide)⟩

/-- C10 counterexample: with a connected store whose search produces zero
matches and the length-2 query `"xq"`, the endpoint answers with the empty
array (the static catalog has no match either), contradicting the claim
that the empty result is never returned in this situation. -/
theorem c10_empty_result_counterexample :
    searchGET ⟨Except.ok true, Except.ok []⟩ (some "xq") =
      ListResponse.ok [] ∧
    (strTrim "xq").length = 2 := by
  exact ⟨rfl, rfl⟩

/-- C10 (amended): for a query whose trimmed form has length at least 2,
when the store is connected but its search returns zero matches, the
endpoint answers with the case-insensitive substring matches of the static
fallback catalog over `word`, `definition` and `translation` (an answer
that may be empty when nothing in the catalog matches) — so the endpoint
can serve records that were never stored. -/
theorem c10_search_falls_back (env : SearchEnv) (q : String)
    (hconn : env.checkConnection = Except.ok true)
    (hdb : env.dbSearch = Except.ok [])
    (hlen : ¬((strTrim q).length < 2)) :
    searchGET env (some q) =
      ListResponse.ok (FallbackWordsSystem.searchWords (strTrim q)) ∧
    (∀ w, w ∈ FallbackWordsSystem.searchWords (strTrim q) ↔
      w ∈ FallbackWordsSystem.fallbackWords ∧
      (strIncludes (strLower w.word) (strLower (strTrim q)) ||
       strIncludes (strLower w.definition) (strLower (strTrim q)) ||
       strIncludes (strLower w.translation) (strLower (strTrim q))) =
        true) := by
  constructor
  · simp [searchGET, hconn, hdb, hlen]
  · intro w
    unfold FallbackWordsSystem.searchWords
    exact List.mem_filter

/-- C10 witness: the query `"eloq"` against a connected store with no
matching rows is answered from the static catalog, and that answer is
non-empty (it contains the never-stored `"eloquent"` entry). -/
theorem c10_search_falls_back_witness :
    searchGET ⟨Except.ok true, Except.ok []⟩ (some "eloq") =
      ListResponse.ok (FallbackWordsSystem.searchWords (strTrim "eloq")) ∧
    (FallbackWordsSystem.searchWords (strTrim "eloq")).map
        (fun w => w.word) = ["eloquent"] :=
  ⟨(c10_search_falls_back ⟨Except.ok true, Except.ok []⟩ "eloq" rfl rfl
      (by decide)).1, rfl⟩

/-- The payload shape accepted by `getRandomWord`:
`Array.isArray(data) && data.length > 0 && typeof data[0] === "string"`. -/
def seedPayloadOk : JVal → Bool
  | JVal.jarr (JVal.jstr _ :: _) => true
  | _ => false

/-- A rejected seed payload makes `getRandomWord` yield `null`. -/
theorem getRandomWordRun_bad_payload (env : GenEnv) (resp : SeedResp)
    (data : JVal) (hseed : env.seedOutcome = Except.ok resp)
    (hbody : resp.body = Except.ok data)
    (hbad : seedPayloadOk data = false) :
    getRandomWordRun env = (none, 1) := by
  obtain ⟨rok, rbody⟩ := resp
  simp only [] at hbody
  subst hbody
  cases rok
  · simp [getRandomWordRun, hseed]
  · simp only [getRandomWordRun, hseed]
    rcases data with _ | b | m | s | xs | fs <;>
      simp_all [seedPayloadOk]
    rcases xs with _ | ⟨x, xs⟩
    · simp
    · rcases x with _ | b | m | s | ys | fs <;> simp_all [seedPayloadOk]

/-- C6: the AI word generator never throws and never retries: it makes at
most one seed fetch and at most one inference call; a missing credential
short-circuits to `null` with no call at all; a seed fetch that throws,
answers with a non-success status, a throwing body read, or a payload that
is not a non-empty array headed by a string yields `null` after the single
seed fetch and with no inference call; and a throwing inference call, an
empty or missing response content, or an unparseable content likewise
normalize to `null`. -/
theorem c6_generator_never_throws (env : GenEnv) :
    ((generateWordRun env).2.seedFetches ≤ 1 ∧
      (generateWordRun env).2.chatCalls ≤ 1) ∧
    (env.hfClient = false → generateWordRun env = (none, ⟨0, 0⟩)) ∧
    (env.hfClient = true → env.seedOutcome = Except.error () →
      generateWordRun env = (none, ⟨1, 0⟩)) ∧
    (env.hfClient = true → ∀ resp : SeedResp,
      env.seedOutcome = Except.ok resp → resp.ok = false →
      generateWordRun env = (none, ⟨1, 0⟩)) ∧
    (env.hfClient = true → ∀ resp : SeedResp,
      env.seedOutcome = Except.ok resp → resp.body = Except.error () →
      generateWordRun env = (none, ⟨1, 0⟩)) ∧
    (env.hfClient = true → ∀ (resp : SeedResp) (data : JVal),
      env.seedOutcome = Except.ok resp → resp.body = Except.ok data →
      seedPayloadOk data = false → generateWordRun env = (none, ⟨1, 0⟩)) ∧
    (env.hfClient = true → env.chatOutcome = Except.error () →
      (generateWordRun env).1 = none) ∧
    (env.hfClient = true → env.chatOutcome = Except.ok none →
      (generateWordRun env).1 = none) ∧
    (∀ content : String, env.hfClient = true →
      env.chatOutcome = Except.ok (some content) →
      parseJSONResponse content = none →
      (generateWordRun env).1 = none) := by
  refine ⟨?_, ?_, ?_, ?_, ?_, ?_, ?_, ?_, ?_⟩
  · unfold generateWordRun
    cases hcl : env.hfClient
    · simp
    · simp only [Bool.true_eq_false, if_neg (by decide : ¬(true = false))]
      rcases hro : getRandomWordRun env with ⟨o, n⟩
      have hn : n = 1 := by
        unfold getRandomWordRun at hro
        exact (Prod.mk.injEq _ _ _ _ ▸ hro).symm.1 ▸ rfl
      rcases o with _ | s
      · simp [hn]
      · rcases hch : env.chatOutcome with u | oc
        · simp [hn]
        · rcases oc with _ | c
          · simp [hn]
          · by_cases hce : c = "" <;> simp [hn, hce]
  · intro hcl
    unfold generateWordRun
    rw [hcl]
    simp
  · intro hcl hseed
    unfold generateWordRun getRandomWordRun
    rw [hcl, hseed]
    simp
  · intro hcl resp hseed hok
    obtain ⟨rok, rbody⟩ := resp
    simp only [] at hok
    subst hok
    simp [generateWordRun, getRandomWordRun, hcl, hseed]
  · intro hcl resp hseed hbody
    obtain ⟨rok, rbody⟩ := resp
    simp only [] at hbody
    subst hbody
    cases rok <;> simp [generateWordRun, getRandomWordRun, hcl, hseed]
  · intro hcl resp data hseed hbody hbad
    unfold generateWordRun
    rw [hcl, getRandomWordRun_bad_payload env resp data hseed hbody hbad]
    simp
  · intro hcl hch
    unfold generateWordRun
    rw [hcl, hch]
    rcases hro : getRandomWordRun env with ⟨o, n⟩
    rcases o with _ | s <;> simp
  · intro hcl hch
    unfold generateWordRun
    rw [hcl, hch]
    rcases hro : getRandomWordRun env with ⟨o, n⟩
    rcases o with _ | s <;> simp
  · intro content hcl hch hparse
    unfold generateWordRun
    rw [hcl, hch]
    rcases hro : getRandomWordRun env with ⟨o, n⟩
    rcases o with _ | s
    · simp
    · by_cases hce : content = "" <;> simp [hce, hparse]

/-- C6 witness: the short-circuit without a credential and the null result
after a seed fetch that throws. -/
theorem c6_generator_never_throws_witness :
    generateWordRun ⟨false, Except.error (), Except.error ()⟩ =
      (none, ⟨0, 0⟩) ∧
    generateWordRun ⟨true, Except.error (), Except.error ()⟩ =
      (none, ⟨1, 0⟩) :=
  ⟨(c6_generator_never_throws
      ⟨false, Except.error (), Except.error ()⟩).2.1 rfl,
   (c6_generator_never_throws
      ⟨true, Except.error (), Except.error ()⟩).2.2.1 rfl rfl⟩

/-- `skipWs` keeps a list whose head is not whitespace. -/
theorem skipWs_cons_of_not_ws {c : Char} (cs : List Char)
    (hw : isWsChar c = false) : skipWs (c :: cs) = c :: cs := by
  simp [skipWs, hw]

/-- `jsTrim` keeps a list whose two ends are not whitespace. -/
theorem jsTrim_of_ends (cs : List Char) (c0 c1 : Char)
    (hh : cs.head? = some c0) (hw0 : isWsChar c0 = false)
    (hl : cs.getLast? = some c1) (hw1 : isWsChar c1 = false) :
    jsTrim cs = cs := by
  rcases cs with _ | ⟨a, cs⟩
  · cases hh
  · have ha : a = c0 := by simpa using hh
    subst ha
    unfold jsTrim
    rw [skipWs_cons_of_not_ws _ hw0]
    have hrev : (a :: cs).reverse.head? = some c1 := by
      rw [List.head?_reverse]
      exact hl
    rcases hr : (a :: cs).reverse with _ | ⟨b, rs⟩
    · exact absurd hr (by simp)
    · have hb : b = c1 := by
        rw [hr] at hrev
        simpa using hrev
      subst hb
      rw [skipWs_cons_of_not_ws _ hw1, ← hr, List.reverse_reverse]

/-- A list is an `isPrefixOf`-prefix of itself followed by anything. -/
theorem isPrefixOf_self_append (t rest : List Char) :
    t.isPrefixOf (t ++ rest) = true := by
  induction t with
  | nil => simp
  | cons a t ih => simp [List.isPrefixOf_cons₂, ih]

/-- Without fuel the fence replacement leaves its input unchanged. -/
theorem replaceFenceAux_zero (tag : List Char) (cs : List Char) :
    replaceFenceAux tag 0 cs = cs := by
  cases cs <;> rfl

/-- The fence replacement copies a backtick-free prefix unchanged, spending
one unit of fuel per character. -/
theorem replaceFenceAux_copy (tr : List Char) (cs tail : List Char)
    (h : ¬ btick ∈ cs) :
    ∀ fuel, replaceFenceAux (btick :: tr) fuel (cs ++ tail) =
      cs ++ replaceFenceAux (btick :: tr) (fuel - cs.length) tail := by
  induction cs with
  | nil => intro fuel; simp
  | cons c cs ih =>
    intro fuel
    have hc : ¬(btick = c) := by
      intro he
      exact h (he ▸ List.mem_cons_self _ _)
    have hmem : ¬ btick ∈ cs := fun hm => h (List.mem_cons_of_mem _ hm)
    cases fuel with
    | zero =>
      rw [Nat.zero_sub, replaceFenceAux_zero, replaceFenceAux_zero]
    | succ f =>
      have hbc : (btick == c) = false := by
        simpa using hc
      have hpre :
          ((btick :: tr).isPrefixOf (c :: (cs ++ tail))) = false := by
        simp [List.isPrefixOf_cons₂, hbc]
      have harith : f + 1 - (c :: cs).length = f - cs.length := by
        rw [List.length_cons]
        omega
      show replaceFenceAux (btick :: tr) (f + 1) (c :: (cs ++ tail)) = _
      conv_lhs => rw [replaceFenceAux.eq_def]
      simp only [hpre, Bool.false_eq_true, if_false]
      rw [ih hmem f, harith, List.cons_append]

/-- The fence replacement removes a leading tag occurrence together with
the whitespace after it. -/
theorem replaceFenceAux_head (tr rest : List Char) (f : Nat) :
    replaceFenceAux (btick :: tr) (f + 1) ((btick :: tr) ++ rest) =
      replaceFenceAux (btick :: tr) f (skipWs rest) := by
  have hpre :
      ((btick :: tr).isPrefixOf (btick :: (tr ++ rest))) = true := by
    rw [show (btick :: (tr ++ rest)) = (btick :: tr) ++ rest from rfl]
    exact isPrefixOf_self_append _ _
  have hdrop : (btick :: (tr ++ rest)).drop (btick :: tr).length = rest := by
    rw [show (btick :: (tr ++ rest)) = (btick :: tr) ++ rest from rfl]
    exact List.drop_left _ _
  show replaceFenceAux (btick :: tr) (f + 1) (btick :: (tr ++ rest)) = _
  conv_lhs => rw [replaceFenceAux.eq_def]
  simp only [hpre, if_true, hdrop]

/-- The fence replacement leaves an empty list empty. -/
theorem replaceFenceAux_nil (tag : List Char) :
    ∀ fuel, replaceFenceAux tag fuel [] = [] := by
  intro fuel
  cases fuel <;> rfl

/-- `skipWs` drops a whitespace head. -/
theorem skipWs_cons_of_ws {c : Char} (cs : List Char)
    (hw : isWsChar c = true) : skipWs (c :: cs) = skipWs cs := by
  simp [skipWs, hw]

/-- A positive-fuel fence replacement of a leading tag occurrence, with the
fuel given as a predecessor. -/
theorem replaceFenceAux_head' (tr rest : List Char) (fuel : Nat)
    (h : fuel ≠ 0) :
    replaceFenceAux (btick :: tr) fuel ((btick :: tr) ++ rest) =
      replaceFenceAux (btick :: tr) (fuel - 1) (skipWs rest) := by
  cases fuel with
  | zero => exact absurd rfl h
  | succ f =>
    rw [Nat.succ_sub_one]
    exact replaceFenceAux_head tr rest f

/-- Brace extraction when a first opening brace sits strictly before a last
closing brace. -/
theorem extractBraces_eq (cs : List Char) (i j : Nat)
    (hi : idxOfChar obrace cs = some i) (hj : lastIdxOfChar cbrace cs = some j)
    (hij : i < j) :
    extractBraces cs = (cs.drop i).take (j + 1 - i) := by
  unfold extractBraces
  rw [hi, hj]
  simp [hij]

/-- Markdown-fence stripping: on a backtick-free JSON-object-shaped payload
(first character an opening brace, last character a closing brace), the
response parser treats the payload wrapped in a ```json code fence exactly
like the bare payload. -/
theorem parseJSONResponse_fenced (s : String)
    (hnb : ¬ btick ∈ s.data)
    (hhead : s.data.head? = some obrace)
    (hlast : s.data.getLast? = some cbrace) :
    parseJSONResponse ("```json\n" ++ s ++ "\n```") = parseJSONResponse s := by
  obtain ⟨cs⟩ := s
  rcases cs with _ | ⟨a, cs2⟩
  · exact absurd hhead (by simp)
  have ha : a = obrace := by simpa using hhead
  subst ha
  have hL : ((String.mk (obrace :: cs2)).data) = obrace :: cs2 := rfl
  rw [hL] at hnb hlast
  -- the last character is a closing brace, so the tail is non-empty
  have hcs2 : cs2 ≠ [] := by
    intro he
    subst he
    have hoc : obrace = cbrace := by simpa using hlast
    exact absurd hoc (by decide)
  have hm : 1 ≤ cs2.length := List.length_pos.mpr hcs2
  -- the reversed payload starts with the closing brace
  have hrevh : (obrace :: cs2).reverse.head? = some cbrace := by
    rw [List.head?_reverse]
    exact hlast
  rcases hr : (obrace :: cs2).reverse with _ | ⟨d, rs⟩
  · exact absurd hr (by simp)
  have hd : d = cbrace := by
    rw [hr] at hrevh
    simpa using hrevh
  subst hd
  -- character-list form of the fenced text
  have hlit1 : ("```json\n" : String).data = fenceJsonTag ++ ['\n'] := rfl
  have hlit2 : ("\n```" : String).data = '\n' :: fenceTag := rfl
  have h_data : ("```json\n" ++ String.mk (obrace :: cs2) ++ "\n```").data =
      fenceJsonTag ++ ('\n' :: ((obrace :: cs2) ++ '\n' :: fenceTag)) := by
    rw [String.data_append, String.data_append, hlit1, hlit2, hL]
    simp
  -- step A: trimming keeps the fenced text (both ends are backticks)
  have hA : jsTrim (fenceJsonTag ++
      ('\n' :: ((obrace :: cs2) ++ '\n' :: fenceTag))) =
      fenceJsonTag ++ ('\n' :: ((obrace :: cs2) ++ '\n' :: fenceTag)) := by
    refine jsTrim_of_ends _ btick btick rfl (by decide) ?_ (by decide)
    rw [show fenceJsonTag ++ ('\n' :: ((obrace :: cs2) ++ '\n' :: fenceTag))
        = (fenceJsonTag ++ ('\n' :: ((obrace :: cs2) ++
            ['\n', btick, btick]))) ++ [btick] from by simp [fenceTag]]
    exact List.getLast?_concat _
  -- step B: the ```json pass removes the opening fence and nothing else
  have hlen1 : (fenceJsonTag ++
      ('\n' :: ((obrace :: cs2) ++ '\n' :: fenceTag))).length =
      cs2.length + 13 := by
    simp only [fenceJsonTag, fenceTag, List.length_append, List.length_cons,
      List.length_nil]
    omega
  have hnb1 : ¬ btick ∈ (obrace :: cs2) ++ ['\n'] := by
    intro hmem
    rcases List.mem_append.mp hmem with hmem | hmem
    · exact hnb hmem
    · simp at hmem
      exact absurd hmem (by decide)
  have hB : replaceFence fenceJsonTag (fenceJsonTag ++
      ('\n' :: ((obrace :: cs2) ++ '\n' :: fenceTag))) =
      ((obrace :: cs2) ++ ['\n']) ++ fenceTag := by
    unfold replaceFence
    rw [hlen1]
    rw [show fenceJsonTag = btick ::
      [btick, btick, 'j', 's', 'o', 'n'] from rfl]
    rw [replaceFenceAux_head' _ _ _ (by omega)]
    rw [skipWs_cons_of_ws _ (by decide), List.cons_append,
      skipWs_cons_of_not_ws _ (by decide)]
    rw [show obrace :: (cs2 ++ '\n' :: fenceTag) =
      ((obrace :: cs2) ++ ['\n']) ++ fenceTag from by simp]
    rw [replaceFenceAux_copy _ _ _ hnb1 _]
    rw [show (cs2.length + 13 - 1) - ((obrace :: cs2) ++ ['\n']).length = 10
      from by
        simp only [List.length_append, List.length_cons, List.length_nil]
        omega]
    rw [show replaceFenceAux
      (btick :: [btick, btick, 'j', 's', 'o', 'n']) 10 fenceTag = fenceTag
      from rfl]
  -- step C: the ``` pass removes the trailing fence
  have hlen2 : ((((obrace :: cs2) ++ ['\n'])) ++ fenceTag).length =
      cs2.length + 5 := by
    simp only [fenceTag, List.length_append, List.length_cons,
      List.length_nil]
  have hC : replaceFence fenceTag (((obrace :: cs2) ++ ['\n']) ++ fenceTag) =
      (obrace :: cs2) ++ ['\n'] := by
    unfold replaceFence
    rw [hlen2]
    rw [show fenceTag = btick :: [btick, btick] from rfl]
    rw [replaceFenceAux_copy _ _ _ hnb1 _]
    rw [show cs2.length + 5 - ((obrace :: cs2) ++ ['\n']).length = 3
      from by
        simp only [List.length_append, List.length_cons, List.length_nil]
        omega]
    rw [show replaceFenceAux (btick :: [btick, btick]) 3
      [btick, btick, btick] = [] from rfl]
    simp
  -- step D: brace extraction recovers the payload from the fenced clean text
  have hidx : idxOfChar obrace ((obrace :: cs2) ++ ['\n']) = some 0 := by
    simp [idxOfChar, List.findIdx?_cons]
  have hfind : idxOfChar cbrace (((obrace :: cs2) ++ ['\n']).reverse) =
      some 1 := by
    rw [show ((obrace :: cs2) ++ ['\n']).reverse =
      '\n' :: (obrace :: cs2).reverse from by simp]
    rw [hr]
    simp [idxOfChar, List.findIdx?_cons]
    decide
  have hlast2 : lastIdxOfChar cbrace ((obrace :: cs2) ++ ['\n']) =
      some cs2.length := by
    unfold lastIdxOfChar
    rw [hfind]
    show some (((obrace :: cs2) ++ ['\n']).length - 1 - 1) = some cs2.length
    congr 1
    simp only [List.length_append, List.length_cons, List.length_nil]
    omega
  have hD : extractBraces ((obrace :: cs2) ++ ['\n']) = obrace :: cs2 := by
    rw [extractBraces_eq _ 0 cs2.length hidx hlast2 (by omega)]
    rw [List.drop_zero]
    rw [show cs2.length + 1 - 0 = (obrace :: cs2).length from by simp]
    exact List.take_left _ _
  -- the same pipeline on the bare payload
  have hA' : jsTrim (obrace :: cs2) = obrace :: cs2 :=
    jsTrim_of_ends _ obrace cbrace rfl (by decide) hlast (by decide)
  have hB' : replaceFence fenceJsonTag (obrace :: cs2) = obrace :: cs2 := by
    unfold replaceFence
    rw [show fenceJsonTag = btick ::
      [btick, btick, 'j', 's', 'o', 'n'] from rfl]
    rw [show (obrace :: cs2) = (obrace :: cs2) ++ [] from by simp]
    rw [replaceFenceAux_copy _ _ _ hnb _]
    rw [replaceFenceAux_nil]
  have hC' : replaceFence fenceTag (obrace :: cs2) = obrace :: cs2 := by
    unfold replaceFence
    rw [show fenceTag = btick :: [btick, btick] from rfl]
    rw [show (obrace :: cs2) = (obrace :: cs2) ++ [] from by simp]
    rw [replaceFenceAux_copy _ _ _ hnb _]
    rw [replaceFenceAux_nil]
  have hidx' : idxOfChar obrace (obrace :: cs2) = some 0 := by
    simp [idxOfChar, List.findIdx?_cons]
  have hfind' : idxOfChar cbrace ((obrace :: cs2).reverse) = some 0 := by
    rw [hr]
    simp [idxOfChar, List.findIdx?_cons]
  have hlast2' : lastIdxOfChar cbrace (obrace :: cs2) =
      some cs2.length := by
    unfold lastIdxOfChar
    rw [hfind']
    show some ((obrace :: cs2).length - 1 - 0) = some cs2.length
    congr 1
  have hD' : extractBraces (obrace :: cs2) = obrace :: cs2 := by
    rw [extractBraces_eq _ 0 cs2.length hidx' hlast2' (by omega)]
    rw [List.drop_zero]
    rw [show cs2.length + 1 - 0 = (obrace :: cs2).length from by simp]
    exact List.take_length _
  -- assemble both sides
  simp only [parseJSONResponse]
  rw [h_data, hA, hB, hC, hD, hA', hB', hC', hD']

/-- C7 counterexample: `level` is NOT defaulted when present but invalid.
A response whose level is the (truthy, non-enumerated) string `"A0"` is
accepted with that level kept verbatim instead of the claimed `"B2"`. -/
theorem c7_invalid_level_counterexample :
    Option.map (fun r : GeneratedWordJ => r.level)
      (parseJSONResponse
        ("\x7b\"word\":\"lucid\",\"definition\":\"clear\"," ++
         "\"translation\":\"lucido\",\"examples\":[\"a\",\"b\"]," ++
         "\"level\":\"A0\"\x7d")) = some (JVal.jstr "A0") ∧
    ¬ (JVal.jstr "A0" = JVal.jstr "B2") := by
  constructor
  · rfl
  · intro h
    injection h with h2
    exact absurd h2 (by decide)

/-- The bare JSON object of the spec's fence-stripping test. -/
def lucidBareText : String :=
  "\x7b\"word\":\"lucid\",\"definition\":\"clear\"," ++
  "\"translation\":\"lucido\",\"examples\":[\"a\",\"b\"]\x7d"

/-- The parsed value of `lucidBareText`. -/
def lucidVal : JVal :=
  JVal.jobj [("word", JVal.jstr "lucid"), ("definition", JVal.jstr "clear"),
    ("translation", JVal.jstr "lucido"),
    ("examples", JVal.jarr [JVal.jstr "a", JVal.jstr "b"])]

/-- The record `validateParsed` builds from `lucidVal` (phonetic and level
defaulted). -/
def lucidRec : GeneratedWordJ :=
  { word := JVal.jstr "lucid", phonetic := JVal.jstr "/lucid/",
    definition := JVal.jstr "clear", translation := JVal.jstr "lucido",
    examples := [JVal.jstr "a", JVal.jstr "b"], level := JVal.jstr "B2" }

/-- C7 (amended): the response parser strips markdown code fences and takes
the first-brace-to-last-brace slice, so a fenced JSON object parses exactly
like the bare object; a parsed value is accepted only when `word`,
`definition` and `translation` are truthy and `examples` is an array with
at least 2 entries, in which case `examples` is truncated to at most 3
entries, a falsy (in particular absent) `phonetic` defaults to the `/word/`
template and a falsy (in particular absent) `level` defaults to `"B2"`;
any validation failure yields `none`, never a partially-filled record. -/
theorem c7_parser_fences_and_validation (s : String) (v : JVal)
    (r : GeneratedWordJ)
    (hnb : ¬ btick ∈ s.data)
    (hhead : s.data.head? = some obrace)
    (hlast : s.data.getLast? = some cbrace) :
    parseJSONResponse ("```json\n" ++ s ++ "\n```") = parseJSONResponse s ∧
    (validateParsed v = some r →
      jtruthy (jget v "word") = true ∧
      jtruthy (jget v "definition") = true ∧
      jtruthy (jget v "translation") = true ∧
      (∃ xs, jget v "examples" = some (JVal.jarr xs) ∧ 2 ≤ xs.length ∧
        r.examples = xs.take 3) ∧
      r.examples.length ≤ 3 ∧
      (jtruthy (jget v "phonetic") = false →
        r.phonetic = JVal.jstr
          ("/" ++ jsToStr ((jget v "word").getD JVal.jnull) ++ "/")) ∧
      (jtruthy (jget v "level") = false → r.level = JVal.jstr "B2")) ∧
    ((jtruthy (jget v "word") = false ∨
      jtruthy (jget v "definition") = false ∨
      jtruthy (jget v "translation") = false ∨
      (∀ xs, jget v "examples" = some (JVal.jarr xs) → xs.length < 2)) →
      validateParsed v = none) := by
  refine ⟨parseJSONResponse_fenced s hnb hhead hlast, ?_, ?_⟩
  · intro hv
    rcases he : jget v "examples" with _ | x
    · simp only [validateParsed, he] at hv
      simp at hv
    · rcases x with _ | b | m | es | xs | fs
      · simp only [validateParsed, he] at hv
        simp at hv
      · simp only [validateParsed, he] at hv
        simp at hv
      · simp only [validateParsed, he] at hv
        simp at hv
      · simp only [validateParsed, he] at hv
        simp at hv
      · simp only [validateParsed, he] at hv
        split at hv
        · rename_i hcond
          simp only [Bool.and_eq_true, decide_eq_true_eq] at hcond
          obtain ⟨⟨⟨hw, hdef⟩, htr⟩, hxs⟩ := hcond
          rw [Option.some.injEq] at hv
          subst hv
          refine ⟨hw, hdef, htr, ⟨xs, rfl, hxs, rfl⟩, ?_, ?_, ?_⟩
          · simpa using List.length_take_le 3 xs
          · intro hp
            simp [hp]
          · intro hl
            simp [hl]
        · cases hv
      · simp only [validateParsed, he] at hv
        simp at hv
  · intro hfail
    rcases hfail with h | h | h | h
    · simp [validateParsed, h]
    · simp [validateParsed, h]
    · simp [validateParsed, h]
    · rcases he : jget v "examples" with _ | x
      · simp [validateParsed, he]
      · rcases x with _ | b | m | es | xs | fs
        · simp [validateParsed, he]
        · simp [validateParsed, he]
        · simp [validateParsed, he]
        · simp [validateParsed, he]
        · simp [validateParsed, he, Nat.not_le.mpr (h xs he)]
        · simp [validateParsed, he]

/-- C7 witness: the fenced/bare identity on the spec's concrete object, the
acceptance and level default on its parsed value, and the rejection of a
payload with a falsy `definition`. -/
theorem c7_parser_fences_and_validation_witness :
    parseJSONResponse ("```json\n" ++ lucidBareText ++ "\n```") =
      parseJSONResponse lucidBareText ∧
    jtruthy (jget lucidVal "word") = true ∧
    lucidRec.level = JVal.jstr "B2" ∧
    validateParsed (JVal.jobj [("word", JVal.jstr "lucid")]) = none :=
  ⟨(c7_parser_fences_and_validation lucidBareText lucidVal lucidRec
      (by decide) (by decide) (by decide)).1,
   ((c7_parser_fences_and_validation lucidBareText lucidVal lucidRec
      (by decide) (by decide) (by decide)).2.1 rfl).1,
   ((c7_parser_fences_and_validation lucidBareText lucidVal lucidRec
      (by decide) (by decide) (by decide)).2.1 rfl).2.2.2.2.2.2 rfl,
   (c7_parser_fences_and_validation lucidBareText
      (JVal.jobj [("word", JVal.jstr "lucid")]) lucidRec
      (by decide) (by decide) (by decide)).2.2
     (Or.inr (Or.inl rfl))⟩
